import Mathlib

/-!
Shallow embedding of the core of `GNJ_SaturnPeripheralScanner.py`: the sector
framing detector, the Saturn header locator, and the header field decoders.
Byte buffers are modelled as `List Nat` (one entry per byte), decoded text as
`List Char`, and Python's `(Optional[bytes], bool)` return of
`find_saturn_header` as `Option (List Nat) × Bool` (`true` = raw framing,
`false` = stripped framing, exactly the `is_raw` flag of the source).
-/

namespace SaturnScanner

/-- Bytes of the Saturn disc magic identifier `SATURN_MAGIC = b"SEGA SEGASATURN "`. -/
def SATURN_MAGIC : List Nat := [83, 69, 71, 65, 32, 83, 69, 71, 65, 83, 65, 84, 85, 82, 78, 32]

/-- `SECTOR_SIZE_MODE1 = 2048`. -/
def SECTOR_SIZE_MODE1 : Nat := 2048

/-- `SECTOR_SIZE_RAW = 2352`. -/
def SECTOR_SIZE_RAW : Nat := 2352

/-- `RAW_SECTOR_DATA_OFFSET = 16`. -/
def RAW_SECTOR_DATA_OFFSET : Nat := 16

/-- The CD-ROM sync pattern `bytes([0x00] + [0xFF] * 10 + [0x00])` from `detect_raw_mode`. -/
def syncPattern : List Nat := [0x00] ++ List.replicate 10 0xFF ++ [0x00]

/-- `read_sector_data(data, sector, raw_mode)`: one sector's 2048-byte user-data
window, or `None` when the window would run past the end of the buffer. -/
def read_sector_data (data : List Nat) (sector : Nat) (raw_mode : Bool) : Option (List Nat) :=
  if raw_mode then
    let offset := sector * SECTOR_SIZE_RAW + RAW_SECTOR_DATA_OFFSET
    if offset + SECTOR_SIZE_MODE1 > data.length then none
    else some ((data.drop offset).take SECTOR_SIZE_MODE1)
  else
    let offset := sector * SECTOR_SIZE_MODE1
    if offset + SECTOR_SIZE_MODE1 > data.length then none
    else some ((data.drop offset).take SECTOR_SIZE_MODE1)

/-- `detect_raw_mode(data)`: buffers shorter than 16 bytes are never raw;
otherwise the first 12 bytes are compared with the sync pattern. -/
def detect_raw_mode (data : List Nat) : Bool :=
  if data.length < 16 then false
  else data.take 12 == syncPattern

/-- One iteration of the header search: the body of the
`if sector_data and sector_data[:16] == SATURN_MAGIC: return sector_data[:256]`
check of `find_saturn_header`.  `read_sector_data` never returns an empty
bytes object, so Python truthiness of `sector_data` is exactly `isSome`. -/
def checkSector (data : List Nat) (sector : Nat) (raw : Bool) : Option (List Nat) :=
  match read_sector_data data sector raw with
  | none => none
  | some sd => if sd.take 16 = SATURN_MAGIC then some (sd.take 256) else none

/-- The `for sector in range(16)` loops of `find_saturn_header`, over an explicit
list of candidate sector indices; returns on the first match. -/
def findInSectors (data : List Nat) (raw : Bool) : List Nat → Option (List Nat)
  | [] => none
  | s :: rest =>
    match checkSector data s raw with
    | some h => some h
    | none => findInSectors data raw rest

/-- `find_saturn_header(data)`: detect framing, try sector 0, then sectors 0–15
under the detected mode, then (raw mode only) sectors 0–15 as stripped, else
`(None, False)`. -/
def find_saturn_header (data : List Nat) : Option (List Nat) × Bool :=
  let is_raw := detect_raw_mode data
  match checkSector data 0 is_raw with
  | some h => (some h, is_raw)
  | none =>
    match findInSectors data is_raw (List.range 16) with
    | some h => (some h, is_raw)
    | none =>
      if is_raw then
        match findInSectors data false (List.range 16) with
        | some h => (some h, false)
        | none => (none, false)
      else (none, false)

/-! Helper lemmas about the locator. -/

lemma read_sector_data_stripped_some {data : List Nat} {sector : Nat}
    (h : sector * 2048 + 2048 ≤ data.length) :
    read_sector_data data sector false = some ((data.drop (sector * 2048)).take 2048) := by
  simp only [read_sector_data, SECTOR_SIZE_MODE1, Bool.false_eq_true, if_false]
  rw [if_neg (by omega)]

lemma read_sector_data_raw_some {data : List Nat} {sector : Nat}
    (h : sector * 2352 + 16 + 2048 ≤ data.length) :
    read_sector_data data sector true = some ((data.drop (sector * 2352 + 16)).take 2048) := by
  simp only [read_sector_data, SECTOR_SIZE_MODE1, SECTOR_SIZE_RAW, RAW_SECTOR_DATA_OFFSET,
    if_true]
  rw [if_neg (by omega)]

lemma detect_raw_mode_eq_false_of_magic {data : List Nat} (hlen : 16 ≤ data.length)
    (hsig : data.take 16 = SATURN_MAGIC) : detect_raw_mode data = false := by
  have h12 : data.take 12 = SATURN_MAGIC.take 12 := by
    conv_lhs => rw [show (12 : Nat) = min 12 16 by decide, ← List.take_take, hsig]
  simp only [detect_raw_mode]
  rw [if_neg (by omega), h12]
  decide

lemma detect_raw_mode_eq_true {data : List Nat} (hlen : 16 ≤ data.length)
    (hsync : data.take 12 = syncPattern) : detect_raw_mode data = true := by
  simp only [detect_raw_mode]
  rw [if_neg (by omega), hsync]
  decide

lemma checkSector_stripped0_some {data : List Nat} (hlen : 2048 ≤ data.length)
    (hsig : data.take 16 = SATURN_MAGIC) :
    checkSector data 0 false = some (data.take 256) := by
  have hread : read_sector_data data 0 false = some (data.take 2048) := by
    rw [read_sector_data_stripped_some (by omega)]
    simp
  have h16 : (data.take 2048).take 16 = data.take 16 := by
    rw [List.take_take]; norm_num
  have h256 : (data.take 2048).take 256 = data.take 256 := by
    rw [List.take_take]; norm_num
  simp only [checkSector, hread, h16, h256, if_pos hsig]

/-- Sector-0 fast path in stripped mode: signature at the start of the buffer. -/
lemma locate_stripped_sector0 {data : List Nat} (hlen : 2048 ≤ data.length)
    (hsig : data.take 16 = SATURN_MAGIC) :
    find_saturn_header data = (some (data.take 256), false) := by
  have hdet : detect_raw_mode data = false :=
    detect_raw_mode_eq_false_of_magic (by omega) hsig
  simp only [find_saturn_header, hdet, checkSector_stripped0_some hlen hsig]

/-- Sector-0 fast path in raw mode: sync pattern then signature at offset 16. -/
lemma locate_raw_sector0 {data : List Nat} (hlen : 2064 ≤ data.length)
    (hsync : data.take 12 = syncPattern)
    (hsig : (data.drop 16).take 16 = SATURN_MAGIC) :
    find_saturn_header data = (some ((data.drop 16).take 256), true) := by
  have hdet : detect_raw_mode data = true := detect_raw_mode_eq_true (by omega) hsync
  have hread : read_sector_data data 0 true = some ((data.drop 16).take 2048) := by
    rw [read_sector_data_raw_some (by omega)]
  have h16 : ((data.drop 16).take 2048).take 16 = (data.drop 16).take 16 := by
    rw [List.take_take]; norm_num
  have h256 : ((data.drop 16).take 2048).take 256 = (data.drop 16).take 256 := by
    rw [List.take_take]; norm_num
  have hcheck : checkSector data 0 true = some ((data.drop 16).take 256) := by
    simp only [checkSector, hread, h16, h256, if_pos hsig]
  simp only [find_saturn_header, hdet, hcheck]

/-! Concrete witness buffers. -/

/-- A 2048-byte stripped-mode buffer: the signature followed by arbitrary bytes. -/
def dataC1 : List Nat := SATURN_MAGIC ++ List.replicate 2032 7

/-- A 2064-byte raw-mode buffer: sync pattern, 4 filler bytes, the signature at
offset 16, then arbitrary bytes. -/
def dataC2 : List Nat := (syncPattern ++ List.replicate 4 0) ++ (SATURN_MAGIC ++ List.replicate 2032 9)

lemma dataC1_length : dataC1.length = 2048 := by
  simp only [dataC1, List.length_append, List.length_replicate]
  decide

lemma dataC2_length : dataC2.length = 2064 := by
  simp only [dataC2, List.length_append, List.length_replicate]
  decide

/-- C1: a buffer of at least 2048 bytes starting with the 16-byte signature is
located at sector 0 in stripped framing, and the returned header is bytes
[0,256) of the buffer (`false` = FramingMode Stripped). -/
theorem C1_stripped_roundtrip (data : List Nat) (hlen : 2048 ≤ data.length)
    (hsig : data.take 16 = SATURN_MAGIC) :
    find_saturn_header data = (some (data.take 256), false) :=
  locate_stripped_sector0 hlen hsig

/-- Witness for C1 on the concrete buffer `dataC1`. -/
theorem C1_stripped_roundtrip_witness :
    2048 ≤ dataC1.length ∧ dataC1.take 16 = SATURN_MAGIC ∧
    find_saturn_header dataC1 = (some (dataC1.take 256), false) := by
  have h1 : 2048 ≤ dataC1.length := by rw [dataC1_length]
  have h2 : dataC1.take 16 = SATURN_MAGIC := by
    simp only [dataC1]
    rw [List.take_left' (by decide)]
  exact ⟨h1, h2, C1_stripped_roundtrip dataC1 h1 h2⟩

/-- C2: a buffer of at least 2064 bytes starting with the CD-ROM sync pattern
and carrying the signature at offset 16 is located at sector 0 in raw framing,
and the returned header is bytes [16,272) of the buffer (`true` = FramingMode
Raw). -/
theorem C2_raw_roundtrip (data : List Nat) (hlen : 2064 ≤ data.length)
    (hsync : data.take 12 = syncPattern)
    (hsig : (data.drop 16).take 16 = SATURN_MAGIC) :
    find_saturn_header data = (some ((data.drop 16).take 256), true) :=
  locate_raw_sector0 hlen hsync hsig

/-- Witness for C2 on the concrete buffer `dataC2`. -/
theorem C2_raw_roundtrip_witness :
    2064 ≤ dataC2.length ∧ dataC2.take 12 = syncPattern ∧
    (dataC2.drop 16).take 16 = SATURN_MAGIC ∧
    find_saturn_header dataC2 = (some ((dataC2.drop 16).take 256), true) := by
  have h1 : 2064 ≤ dataC2.length := by rw [dataC2_length]
  have h2 : dataC2.take 12 = syncPattern := by
    simp only [dataC2]
    rw [List.take_append_of_le_length (by decide), List.take_append_of_le_length (by decide)]
    decide
  have h3 : (dataC2.drop 16).take 16 = SATURN_MAGIC := by
    simp only [dataC2]
    rw [List.drop_left' (by decide), List.take_left' (by decide)]
  exact ⟨h1, h2, h3, C2_raw_roundtrip dataC2 h1 h2 h3⟩

/-! Inversion lemmas for the locator. -/

lemma read_sector_data_stripped_none {data : List Nat} {sector : Nat}
    (h : data.length < sector * 2048 + 2048) :
    read_sector_data data sector false = none := by
  simp only [read_sector_data, SECTOR_SIZE_MODE1, Bool.false_eq_true, if_false]
  rw [if_pos (by omega)]

lemma read_sector_data_raw_none {data : List Nat} {sector : Nat}
    (h : data.length < sector * 2352 + 16 + 2048) :
    read_sector_data data sector true = none := by
  simp only [read_sector_data, SECTOR_SIZE_MODE1, SECTOR_SIZE_RAW, RAW_SECTOR_DATA_OFFSET,
    if_true]
  rw [if_pos (by omega)]

lemma read_sector_data_some_length {data : List Nat} {s : Nat} {raw : Bool} {sd : List Nat}
    (h : read_sector_data data s raw = some sd) : sd.length = 2048 := by
  cases raw
  · rcases Nat.lt_or_ge data.length (s * 2048 + 2048) with hb | hb
    · rw [read_sector_data_stripped_none hb] at h
      exact absurd h (by simp)
    · rw [read_sector_data_stripped_some hb] at h
      obtain rfl := Option.some.inj h
      simp only [List.length_take, List.length_drop]
      omega
  · rcases Nat.lt_or_ge data.length (s * 2352 + 16 + 2048) with hb | hb
    · rw [read_sector_data_raw_none hb] at h
      exact absurd h (by simp)
    · rw [read_sector_data_raw_some hb] at h
      obtain rfl := Option.some.inj h
      simp only [List.length_take, List.length_drop]
      omega

lemma checkSector_some_spec {data : List Nat} {s : Nat} {raw : Bool} {h : List Nat}
    (hc : checkSector data s raw = some h) :
    h.length = 256 ∧ h.take 16 = SATURN_MAGIC := by
  unfold checkSector at hc
  split at hc
  · exact absurd hc (by simp)
  · rename_i sd hread
    have hsd : sd.length = 2048 := read_sector_data_some_length hread
    split at hc
    · rename_i hmagic
      obtain rfl : sd.take 256 = h := by injection hc
      refine ⟨by simp [List.length_take, hsd], ?_⟩
      rw [List.take_take]
      simpa using hmagic
    · exact absurd hc (by simp)

lemma findInSectors_some {data : List Nat} {raw : Bool} {l : List Nat} {h : List Nat}
    (hf : findInSectors data raw l = some h) :
    ∃ s ∈ l, checkSector data s raw = some h := by
  induction l with
  | nil => simp [findInSectors] at hf
  | cons s rest ih =>
    rw [findInSectors] at hf
    split at hf
    · rename_i hc
      exact ⟨s, by simp, by rw [hc]; exact congrArg some (by injection hf)⟩
    · obtain ⟨t, ht, hct⟩ := ih hf
      exact ⟨t, by simp [ht], hct⟩

/-- C4: whenever `find_saturn_header` returns a header, that header is exactly
256 bytes long and starts with the 16-byte signature — a header region is only
ever produced from a verified signature match. -/
theorem C4_header_invariant (data hdr : List Nat) (mode : Bool)
    (h : find_saturn_header data = (some hdr, mode)) :
    hdr.length = 256 ∧ hdr.take 16 = SATURN_MAGIC := by
  simp only [find_saturn_header] at h
  rcases hc0 : checkSector data 0 (detect_raw_mode data) with _ | h0
  case some =>
    rw [hc0] at h
    simp only [Prod.mk.injEq, Option.some.injEq] at h
    obtain rfl := h.1
    exact checkSector_some_spec hc0
  case none =>
  rw [hc0] at h
  rcases hf1 : findInSectors data (detect_raw_mode data) (List.range 16) with _ | h1
  case some =>
    rw [hf1] at h
    simp only [Prod.mk.injEq, Option.some.injEq] at h
    obtain rfl := h.1
    obtain ⟨s, _, hcs⟩ := findInSectors_some hf1
    exact checkSector_some_spec hcs
  case none =>
  rw [hf1] at h
  rcases hdet : detect_raw_mode data with _ | _
  case true =>
    rw [hdet] at h
    simp only [if_true] at h
    rcases hf2 : findInSectors data false (List.range 16) with _ | h2
    case some =>
      rw [hf2] at h
      simp only [Prod.mk.injEq, Option.some.injEq] at h
      obtain rfl := h.1
      obtain ⟨s, _, hcs⟩ := findInSectors_some hf2
      exact checkSector_some_spec hcs
    case none =>
      rw [hf2] at h
      simp at h
  case false =>
    rw [hdet] at h
    simp at h

/-- Witness for C4: the located header of `dataC1` satisfies the invariant. -/
theorem C4_header_invariant_witness :
    find_saturn_header dataC1 = (some (dataC1.take 256), false) ∧
    (dataC1.take 256).length = 256 ∧ (dataC1.take 256).take 16 = SATURN_MAGIC := by
  have h1 : 2048 ≤ dataC1.length := by rw [dataC1_length]
  have h2 : dataC1.take 16 = SATURN_MAGIC := by
    simp only [dataC1]
    rw [List.take_left' (by decide)]
  have hloc : find_saturn_header dataC1 = (some (dataC1.take 256), false) :=
    locate_stripped_sector0 h1 h2
  exact ⟨hloc, C4_header_invariant dataC1 (dataC1.take 256) false hloc⟩

/-- C5 counterexample: a 12-byte buffer equal to the sync pattern has first 12
bytes equal to the sync pattern, yet `detect_raw_mode` answers stripped
(`false`), because buffers shorter than 16 bytes are never classified raw. -/
theorem C5_counterexample : syncPattern.take 12 = syncPattern ∧
    detect_raw_mode syncPattern = false := by decide

/-- C5 (amended): a buffer of at least 16 bytes whose first 12 bytes equal the
sync pattern is detected raw; any buffer of at least 12 bytes with a different
first-12-byte pattern is detected stripped; buffers shorter than 16 bytes are
always detected stripped. -/
theorem C5_detect_framing (data : List Nat) :
    (16 ≤ data.length → data.take 12 = syncPattern → detect_raw_mode data = true) ∧
    (12 ≤ data.length → data.take 12 ≠ syncPattern → detect_raw_mode data = false) ∧
    (data.length < 16 → detect_raw_mode data = false) := by
  refine ⟨fun h1 h2 => detect_raw_mode_eq_true h1 h2, fun h1 h2 => ?_, fun h1 => ?_⟩
  · unfold detect_raw_mode
    split
    · rfl
    · exact beq_eq_false_iff_ne.mpr h2
  · unfold detect_raw_mode
    rw [if_pos h1]

/-- Witness for C5 on three concrete buffers. -/
theorem C5_detect_framing_witness :
    detect_raw_mode (syncPattern ++ [1, 2, 3, 4]) = true ∧
    detect_raw_mode (List.replicate 12 1) = false ∧
    detect_raw_mode [0] = false :=
  ⟨(C5_detect_framing (syncPattern ++ [1, 2, 3, 4])).1 (by decide) (by decide),
   (C5_detect_framing (List.replicate 12 1)).2.1 (by decide) (by decide),
   (C5_detect_framing [0]).2.2 (by decide)⟩

/-- C6: an out-of-bounds window makes `read_sector_data` return `none` (both
framings); a `none` read makes `checkSector` a non-match; and a non-match
candidate is simply skipped by the sector scan, which continues with the
remaining candidate sectors. -/
theorem C6_truncation_skips_sector :
    (∀ (data : List Nat) (sector : Nat), sector * 2352 + 16 + 2048 > data.length →
      read_sector_data data sector true = none) ∧
    (∀ (data : List Nat) (sector : Nat), sector * 2048 + 2048 > data.length →
      read_sector_data data sector false = none) ∧
    (∀ (data : List Nat) (sector : Nat) (raw : Bool),
      read_sector_data data sector raw = none → checkSector data sector raw = none) ∧
    (∀ (data : List Nat) (raw : Bool) (s : Nat) (rest : List Nat),
      checkSector data s raw = none →
      findInSectors data raw (s :: rest) = findInSectors data raw rest) := by
  refine ⟨fun data sector h => ?_, fun data sector h => ?_,
    fun data sector raw h => ?_, fun data raw s rest h => ?_⟩
  · simp only [read_sector_data, SECTOR_SIZE_MODE1, SECTOR_SIZE_RAW, RAW_SECTOR_DATA_OFFSET,
      if_true]
    rw [if_pos (by omega)]
  · simp only [read_sector_data, SECTOR_SIZE_MODE1, Bool.false_eq_true, if_false]
    rw [if_pos (by omega)]
  · simp [checkSector, h]
  · simp [findInSectors, h]

/-- Witness for C6 on a short concrete buffer. -/
theorem C6_truncation_skips_sector_witness :
    read_sector_data [0, 1, 2] 0 true = none ∧
    read_sector_data [0, 1, 2] 0 false = none ∧
    checkSector [0, 1, 2] 0 false = none ∧
    findInSectors [0, 1, 2] false [0] = findInSectors [0, 1, 2] false [] := by
  have h1 := C6_truncation_skips_sector.1 [0, 1, 2] 0 (by decide)
  have h2 := C6_truncation_skips_sector.2.1 [0, 1, 2] 0 (by decide)
  have h3 := C6_truncation_skips_sector.2.2.1 [0, 1, 2] 0 false h2
  exact ⟨h1, h2, h3, C6_truncation_skips_sector.2.2.2 [0, 1, 2] false 0 [] h3⟩

/-! Lemmas for the stripped fallback path. -/

lemma checkSector_none_of_read_none {data : List Nat} {s : Nat} {raw : Bool}
    (h : read_sector_data data s raw = none) : checkSector data s raw = none := by
  simp [checkSector, h]

lemma checkSector_stripped_none_of_window {data : List Nat} {s : Nat}
    (hb : s * 2048 + 2048 ≤ data.length)
    (hw : (data.drop (s * 2048)).take 16 ≠ SATURN_MAGIC) :
    checkSector data s false = none := by
  have h16 : ((data.drop (s * 2048)).take 2048).take 16 = (data.drop (s * 2048)).take 16 := by
    rw [List.take_take]; norm_num
  simp only [checkSector, read_sector_data_stripped_some hb, h16]
  rw [if_neg hw]

lemma checkSector_raw_none_of_window {data : List Nat} {s : Nat}
    (hb : s * 2352 + 16 + 2048 ≤ data.length)
    (hw : (data.drop (s * 2352 + 16)).take 16 ≠ SATURN_MAGIC) :
    checkSector data s true = none := by
  have h16 : ((data.drop (s * 2352 + 16)).take 2048).take 16 =
      (data.drop (s * 2352 + 16)).take 16 := by
    rw [List.take_take]; norm_num
  simp only [checkSector, read_sector_data_raw_some hb, h16]
  rw [if_neg hw]

lemma findInSectors_none_of_all {data : List Nat} {raw : Bool} {l : List Nat}
    (h : ∀ s ∈ l, checkSector data s raw = none) : findInSectors data raw l = none := by
  induction l with
  | nil => rfl
  | cons s rest ih =>
    rw [findInSectors, h s (by simp)]
    exact ih (fun t ht => h t (by simp [ht]))

lemma findInSectors_append_none {data : List Nat} {raw : Bool} {l₁ l₂ : List Nat}
    (h : findInSectors data raw l₁ = none) :
    findInSectors data raw (l₁ ++ l₂) = findInSectors data raw l₂ := by
  induction l₁ with
  | nil => rfl
  | cons s rest ih =>
    rw [findInSectors] at h
    rw [List.cons_append, findInSectors]
    split at h
    · exact absurd h (by simp)
    · exact ih h

/-- C3: with a valid sync pattern (raw detected), no raw-mode match in sectors
0–15, and sector 5 the first stripped-mode match, the locator falls back and
returns bytes [5·2048, 5·2048+256) tagged stripped (`false`). -/
theorem C3_stripped_fallback (data : List Nat)
    (hsync : data.take 12 = syncPattern)
    (hlen : 16 ≤ data.length)
    (hraw : ∀ s, s < 16 → checkSector data s true = none)
    (hlen5 : 5 * 2048 + 2048 ≤ data.length)
    (hsig5 : (data.drop (5 * 2048)).take 16 = SATURN_MAGIC)
    (hfirst : ∀ s, s < 5 → checkSector data s false = none) :
    find_saturn_header data = (some ((data.drop (5 * 2048)).take 256), false) := by
  have hdet : detect_raw_mode data = true := detect_raw_mode_eq_true hlen hsync
  have hc0 : checkSector data 0 true = none := hraw 0 (by omega)
  have hf1 : findInSectors data true (List.range 16) = none :=
    findInSectors_none_of_all (fun s hs => hraw s (List.mem_range.mp hs))
  have hc5 : checkSector data 5 false = some ((data.drop (5 * 2048)).take 256) := by
    have h16 : ((data.drop (5 * 2048)).take 2048).take 16 = (data.drop (5 * 2048)).take 16 := by
      rw [List.take_take]; norm_num
    have h256 : ((data.drop (5 * 2048)).take 2048).take 256 =
        (data.drop (5 * 2048)).take 256 := by
      rw [List.take_take]; norm_num
    simp only [checkSector, read_sector_data_stripped_some hlen5, h16, h256, if_pos hsig5]
  have hsplit : List.range 16 = List.range 5 ++ [5, 6, 7, 8, 9, 10, 11, 12, 13, 14, 15] := by
    decide
  have hf05 : findInSectors data false (List.range 5) = none :=
    findInSectors_none_of_all (fun s hs => hfirst s (List.mem_range.mp hs))
  have hf2 : findInSectors data false (List.range 16) =
      some ((data.drop (5 * 2048)).take 256) := by
    rw [hsplit, findInSectors_append_none hf05, findInSectors, hc5]
  simp only [find_saturn_header, hdet, hc0, hf1, if_true, hf2]

/-- A 12288-byte buffer with a valid sync pattern at the start, zeros through
byte 10239, and the signature only at stripped sector 5 (offset 10240). -/
def dataC3 : List Nat :=
  (syncPattern ++ List.replicate 10228 0) ++ (SATURN_MAGIC ++ List.replicate 2032 0)

lemma dataC3_length : dataC3.length = 12288 := by
  simp only [dataC3, List.length_append, List.length_replicate]
  decide

lemma dataC3_window_zero {off : Nat} (h12 : 12 ≤ off) (hb : off + 16 ≤ 10240) :
    (dataC3.drop off).take 16 = List.replicate 16 0 := by
  have hA : (syncPattern ++ List.replicate 10228 (0 : Nat)).length = 10240 := by
    simp only [List.length_append, List.length_replicate]
    decide
  have hsl : syncPattern.length = 12 := by decide
  simp only [dataC3]
  rw [List.drop_append_of_le_length (by rw [hA]; omega)]
  rw [List.drop_append_eq_append_drop, hsl]
  rw [List.drop_eq_nil_of_le (by rw [hsl]; omega)]
  simp only [List.nil_append, List.drop_replicate]
  rw [List.take_append_of_le_length (by simp only [List.length_replicate]; omega)]
  rw [List.take_replicate]
  congr 1
  omega

lemma dataC3_take16 : dataC3.take 16 = syncPattern ++ List.replicate 4 0 := by
  have hA : (syncPattern ++ List.replicate 10228 (0 : Nat)).length = 10240 := by
    simp only [List.length_append, List.length_replicate]
    decide
  have hsl : syncPattern.length = 12 := by decide
  simp only [dataC3]
  rw [List.take_append_of_le_length (by rw [hA]; omega)]
  rw [List.take_append_eq_append_take, List.take_of_length_le (by rw [hsl]; omega),
    List.take_replicate, hsl]
  norm_num

lemma dataC3_drop_10240 : dataC3.drop (5 * 2048) = SATURN_MAGIC ++ List.replicate 2032 0 := by
  simp only [dataC3]
  rw [List.drop_left' (by simp only [List.length_append, List.length_replicate]; decide)]

/-- Witness for C3 on the concrete buffer `dataC3`. -/
theorem C3_stripped_fallback_witness :
    dataC3.take 12 = syncPattern ∧
    (∀ s, s < 16 → checkSector dataC3 s true = none) ∧
    (∀ s, s < 5 → checkSector dataC3 s false = none) ∧
    (dataC3.drop (5 * 2048)).take 16 = SATURN_MAGIC ∧
    find_saturn_header dataC3 = (some ((dataC3.drop (5 * 2048)).take 256), false) := by
  have hlen : dataC3.length = 12288 := dataC3_length
  have hsync : dataC3.take 12 = syncPattern := by
    have h12 : dataC3.take 12 = (dataC3.take 16).take 12 := by
      rw [List.take_take]; norm_num
    rw [h12, dataC3_take16, List.take_append_of_le_length (by decide)]
    decide
  have hsig5 : (dataC3.drop (5 * 2048)).take 16 = SATURN_MAGIC := by
    rw [dataC3_drop_10240, List.take_left' (by decide)]
  have hraw : ∀ s, s < 16 → checkSector dataC3 s true = none := by
    intro s hs
    rcases Nat.lt_or_ge s 5 with h5 | h5
    · apply checkSector_raw_none_of_window (by rw [hlen]; omega)
      rw [dataC3_window_zero (by omega) (by omega)]
      decide
    · exact checkSector_none_of_read_none (read_sector_data_raw_none (by rw [hlen]; omega))
  have hfirst : ∀ s, s < 5 → checkSector dataC3 s false = none := by
    intro s hs
    apply checkSector_stripped_none_of_window (by rw [hlen]; omega)
    interval_cases s
    · rw [show (0 * 2048 : Nat) = 0 by norm_num, List.drop_zero, dataC3_take16]
      decide
    · rw [dataC3_window_zero (by norm_num) (by norm_num)]
      decide
    · rw [dataC3_window_zero (by norm_num) (by norm_num)]
      decide
    · rw [dataC3_window_zero (by norm_num) (by norm_num)]
      decide
    · rw [dataC3_window_zero (by norm_num) (by norm_num)]
      decide
  have hlen16 : 16 ≤ dataC3.length := by rw [hlen]; omega
  have hlen5 : 5 * 2048 + 2048 ≤ dataC3.length := by rw [hlen]
  exact ⟨hsync, hraw, hfirst, hsig5,
    C3_stripped_fallback dataC3 hsync hlen16 hraw hlen5 hsig5 hfirst⟩

/-! Field decoder definitions. -/

/-- `OFFSET_PRODUCT_NUM = 0x20`. -/
def OFFSET_PRODUCT_NUM : Nat := 0x20

/-- `OFFSET_VERSION = 0x2A`. -/
def OFFSET_VERSION : Nat := 0x2A

/-- `OFFSET_AREA_CODES = 0x40`. -/
def OFFSET_AREA_CODES : Nat := 0x40

/-- `OFFSET_PERIPHERAL = 0x50`. -/
def OFFSET_PERIPHERAL : Nat := 0x50

/-- `OFFSET_GAME_TITLE = 0x60`. -/
def OFFSET_GAME_TITLE : Nat := 0x60

/-- The Unicode replacement character U+FFFD. -/
def replacementChar : Char := Char.ofNat 0xFFFD

/-- One byte of Python `bytes.decode("ascii", errors="replace")`: bytes below
0x80 decode to themselves, anything else becomes U+FFFD. -/
def decodeByteAsciiReplace (b : Nat) : Char :=
  if b < 128 then Char.ofNat b else replacementChar

/-- Python `bytes.decode("ascii", errors="replace")` over a byte slice. -/
def asciiDecodeReplace (bs : List Nat) : List Char := bs.map decodeByteAsciiReplace

/-- Fallible-decoder shape of the `try`/`except` blocks in the source.  With
`errors="replace"` every byte decodes (no exception is possible), so the real
decoder always returns `ok`; the `Except` wrapper is the hook the source's
`except` fallbacks observe. -/
def decodeAsciiReplaceE (bs : List Nat) : Except Unit (List Char) :=
  Except.ok (asciiDecodeReplace bs)

/-- Python `str.isprintable` restricted to the characters reachable from
ascii+replace decoding (code points 0–0x7F and U+FFFD): the printable ASCII
range 0x20–0x7E is printable, ASCII control characters (categories Cc) are
not, and U+FFFD (category So) is printable. -/
def pyIsPrintable (c : Char) : Bool :=
  (0x20 ≤ c.toNat && c.toNat ≤ 0x7E) || c.toNat == 0xFFFD

/-- The filter of the `for char in peripheral_raw` loop:
`char != ' ' and char != '\x00' and char.isprintable()`. -/
def isPeripheralCodeChar (c : Char) : Bool :=
  c != ' ' && c != Char.ofNat 0 && pyIsPrintable c

/-- The accumulation loop of `extract_peripheral_codes`: append each kept
character to `codes`, preserving order and duplicates. -/
def collectCodes : List Char → List Char
  | [] => []
  | c :: rest => if isPeripheralCodeChar c then c :: collectCodes rest else collectCodes rest

/-- Lowercase hex digit, as produced by Python `bytes.hex()`. -/
def hexDigitChar (n : Nat) : Char :=
  if n < 10 then Char.ofNat (48 + n) else Char.ofNat (87 + n)

/-- Two lowercase hex digits of one byte. -/
def byteToHex (b : Nat) : List Char := [hexDigitChar (b / 16 % 16), hexDigitChar (b % 16)]

/-- Python `bytes.hex()`: the lowercase hex dump of a byte slice. -/
def bytesToHex (bs : List Nat) : List Char := bs.flatMap byteToHex

/-- `extract_peripheral_codes`, parameterised by the decoder so the `except`
fallback (hex dump of the raw bytes) is expressible: returns
`(peripheral_raw, codes)`. -/
def extract_peripheral_codes_with (dec : List Nat → Except Unit (List Char))
    (header : List Nat) : List Char × List Char :=
  let peripheral_bytes := (header.drop OFFSET_PERIPHERAL).take 16
  let peripheral_raw :=
    match dec peripheral_bytes with
    | Except.ok s => s
    | Except.error _ => bytesToHex peripheral_bytes
  (peripheral_raw, collectCodes peripheral_raw)

/-- `extract_peripheral_codes(header)` with the real ascii+replace decoder. -/
def extract_peripheral_codes (header : List Nat) : List Char × List Char :=
  extract_peripheral_codes_with decodeAsciiReplaceE header

/-- Python `str.isspace` on the ASCII range (what `str.rstrip()` strips):
tab through carriage return (0x09–0x0D), the separator control characters
0x1C–0x1F, and space (0x20). -/
def pyIsSpaceChar (c : Char) : Bool :=
  (9 ≤ c.toNat && c.toNat ≤ 13) || (28 ≤ c.toNat && c.toNat ≤ 32)

/-- Python `str.rstrip()`: drop trailing whitespace. -/
def pyRstrip (s : List Char) : List Char := (s.reverse.dropWhile pyIsSpaceChar).reverse

/-- `extract_game_info`, parameterised by the decoder: the single `try` block
decodes game title, version, product number and area codes; if any of the four
decodes fails, the shared `except` returns four empty strings. -/
def extract_game_info_with (dec : List Nat → Except Unit (List Char))
    (header : List Nat) : List Char × List Char × List Char × List Char :=
  match dec ((header.drop OFFSET_GAME_TITLE).take 112),
        dec ((header.drop OFFSET_VERSION).take 6),
        dec ((header.drop OFFSET_PRODUCT_NUM).take 10),
        dec ((header.drop OFFSET_AREA_CODES).take 16) with
  | Except.ok t, Except.ok v, Except.ok p, Except.ok a =>
      (pyRstrip t, pyRstrip v, pyRstrip p, pyRstrip a)
  | _, _, _, _ => ([], [], [], [])

/-- `extract_game_info(header)` with the real ascii+replace decoder. -/
def extract_game_info (header : List Nat) : List Char × List Char × List Char × List Char :=
  extract_game_info_with decodeAsciiReplaceE header

/-- `PERIPHERAL_CODES`, the static catalog from official Sega documentation. -/
def PERIPHERAL_CODES : List (Char × String) :=
  [('J', "Control Pad"), ('A', "Analog Controller"), ('E', "3D Controller"),
   ('M', "Mouse"), ('K', "Keyboard"), ('S', "Steering Controller"),
   ('T', "Multitap"), ('G', "Virtua Gun"), ('W', "RAM Cartridge"),
   ('C', "Link Cable (JP)"), ('D', "DirectLink (US)"), ('X', "NetLink Modem"),
   ('Q', "Pachinko Controller"), ('F', "Floppy Drive"), ('R', "ROM Cartridge"),
   ('P', "Video CD Card")]

/-- Body of the loop of `ScanResult.get_human_readable_peripherals`: catalog
name for a known code, else `Unknown(<code>)`. -/
def describePeripheral (c : Char) : String :=
  match PERIPHERAL_CODES.lookup c with
  | some d => d
  | none => "Unknown(" ++ String.mk [c] ++ ")"

/-- `ScanResult.get_human_readable_peripherals`: comma-separated descriptions. -/
def get_human_readable_peripherals (codes : List Char) : String :=
  String.intercalate ", " (codes.map describePeripheral)

/-- The decoded fields produced for one successfully scanned header. -/
structure DecodedHeader where
  gameTitle : List Char
  version : List Char
  productNumber : List Char
  areaCodes : List Char
  peripheralRaw : List Char
  peripheralCodes : List Char

/-- The core composition used by `scan_file` once a buffer is in hand: locate
the header, then decode its fields; `none` when no header is found. -/
def scan (buffer : List Nat) : Option DecodedHeader :=
  match find_saturn_header buffer with
  | (some header, _) =>
    some { gameTitle := (extract_game_info header).1,
           version := (extract_game_info header).2.1,
           productNumber := (extract_game_info header).2.2.1,
           areaCodes := (extract_game_info header).2.2.2,
           peripheralRaw := (extract_peripheral_codes header).1,
           peripheralCodes := (extract_peripheral_codes header).2 }
  | (none, _) => none

lemma collectCodes_eq_filter (l : List Char) :
    collectCodes l = l.filter isPeripheralCodeChar := by
  induction l with
  | nil => rfl
  | cons c rest ih =>
    by_cases h : isPeripheralCodeChar c <;>
      simp [collectCodes, List.filter_cons, h, ih]

lemma extract_peripheral_codes_snd (header : List Nat) :
    (extract_peripheral_codes header).2 =
      (((header.drop 0x50).take 16).map decodeByteAsciiReplace).filter isPeripheralCodeChar := by
  simp only [extract_peripheral_codes, extract_peripheral_codes_with, decodeAsciiReplaceE,
    asciiDecodeReplace, OFFSET_PERIPHERAL]
  exact collectCodes_eq_filter _

/-- C7: the extracted peripheral codes are exactly the decoded field characters
that survive the not-space/not-null/printable filter, in order, duplicates
kept, hence at most 16 of them; the field `"JAMK"` + 12 spaces yields
`['J','A','M','K']`. -/
theorem C7_peripheral_codes (header : List Nat) :
    (extract_peripheral_codes header).2 =
      (((header.drop 0x50).take 16).map decodeByteAsciiReplace).filter isPeripheralCodeChar ∧
    (extract_peripheral_codes header).2.length ≤ 16 ∧
    ((header.drop 0x50).take 16 = [74, 65, 77, 75] ++ List.replicate 12 32 →
      (extract_peripheral_codes header).2 = ['J', 'A', 'M', 'K']) := by
  have hbase := extract_peripheral_codes_snd header
  refine ⟨hbase, ?_, ?_⟩
  · rw [hbase]
    calc ((((header.drop 0x50).take 16).map decodeByteAsciiReplace).filter
            isPeripheralCodeChar).length
        ≤ (((header.drop 0x50).take 16).map decodeByteAsciiReplace).length :=
          List.length_filter_le _ _
      _ = ((header.drop 0x50).take 16).length := List.length_map _ _
      _ ≤ 16 := List.length_take_le _ _
  · intro hf
    rw [hbase, hf]
    decide

/-- A 256-byte header whose peripheral field is `"JAMK"` + 12 spaces. -/
def hdrC7 : List Nat :=
  List.replicate 80 0 ++ (([74, 65, 77, 75] ++ List.replicate 12 32) ++ List.replicate 160 0)

/-- Witness for C7 on the concrete header `hdrC7`. -/
theorem C7_peripheral_codes_witness :
    (hdrC7.drop 0x50).take 16 = [74, 65, 77, 75] ++ List.replicate 12 32 ∧
    (extract_peripheral_codes hdrC7).2 = ['J', 'A', 'M', 'K'] := by
  have hf : (hdrC7.drop 0x50).take 16 = [74, 65, 77, 75] ++ List.replicate 12 32 := by
    decide
  exact ⟨hf, (C7_peripheral_codes hdrC7).2.2 hf⟩

/-! Catalog and error-handling claims. -/

lemma lookup_eq_none_of_not_mem_keys {l : List (Char × String)} {c : Char}
    (h : c ∉ l.map Prod.fst) : l.lookup c = none := by
  induction l with
  | nil => rfl
  | cons p rest ih =>
    obtain ⟨k, v⟩ := p
    simp only [List.map_cons, List.mem_cons, not_or] at h
    simp only [List.lookup]
    rw [show (c == k) = false from beq_eq_false_iff_ne.mpr h.1]
    exact ih h.2

/-- C8: `get_human_readable_peripherals` joins per-code descriptions with
`", "`; a code found in the catalog maps to its catalog name, any other code
maps to `Unknown(<code>)` verbatim; the catalog keys are exactly the 16 known
characters; and `['J','Z']` renders as `"Control Pad, Unknown(Z)"`. -/
theorem C8_peripheral_descriptions :
    (∀ c d, PERIPHERAL_CODES.lookup c = some d → describePeripheral c = d) ∧
    (∀ c, c ∉ PERIPHERAL_CODES.map Prod.fst →
      describePeripheral c = "Unknown(" ++ String.mk [c] ++ ")") ∧
    PERIPHERAL_CODES.map Prod.fst =
      ['J', 'A', 'E', 'M', 'K', 'S', 'T', 'G', 'W', 'C', 'D', 'X', 'Q', 'F', 'R', 'P'] ∧
    (∀ codes, get_human_readable_peripherals codes =
      String.intercalate ", " (codes.map describePeripheral)) ∧
    get_human_readable_peripherals ['J', 'Z'] = "Control Pad, Unknown(Z)" := by
  refine ⟨?_, ?_, by decide, fun codes => rfl, by decide⟩
  · intro c d h
    simp only [describePeripheral, h]
  · intro c hc
    simp only [describePeripheral, lookup_eq_none_of_not_mem_keys hc]

/-- Witness for C8: a known and an unknown code described concretely. -/
theorem C8_peripheral_descriptions_witness :
    describePeripheral (Char.ofNat 74) = "Control Pad" ∧
    describePeripheral (Char.ofNat 90) = "Unknown(" ++ String.mk [Char.ofNat 90] ++ ")" :=
  ⟨C8_peripheral_descriptions.1 (Char.ofNat 74) "Control Pad" (by decide),
   C8_peripheral_descriptions.2.1 (Char.ofNat 90) (by decide)⟩

/-- C9: with the real ascii+replace decoder no field decode can fail, so
`extract_game_info` and `extract_peripheral_codes` always return the decoded
fields; if a decoder did fail on any of title/version/product/area, all four
fall back together to empty strings; if it failed on the peripheral field,
that field alone falls back to the lowercase hex dump; and `scan` yields
either a decoded header or the explicit absence result of the locator. -/
theorem C9_decode_never_fails :
    (∀ header : List Nat, extract_game_info header =
      (pyRstrip (asciiDecodeReplace ((header.drop 0x60).take 112)),
       pyRstrip (asciiDecodeReplace ((header.drop 0x2A).take 6)),
       pyRstrip (asciiDecodeReplace ((header.drop 0x20).take 10)),
       pyRstrip (asciiDecodeReplace ((header.drop 0x40).take 16)))) ∧
    (∀ header : List Nat, (extract_peripheral_codes header).1 =
      asciiDecodeReplace ((header.drop 0x50).take 16)) ∧
    (∀ (dec : List Nat → Except Unit (List Char)) (header : List Nat),
      (dec ((header.drop 0x60).take 112) = Except.error () ∨
       dec ((header.drop 0x2A).take 6) = Except.error () ∨
       dec ((header.drop 0x20).take 10) = Except.error () ∨
       dec ((header.drop 0x40).take 16) = Except.error ()) →
      extract_game_info_with dec header = ([], [], [], [])) ∧
    (∀ (dec : List Nat → Except Unit (List Char)) (header : List Nat),
      dec ((header.drop 0x50).take 16) = Except.error () →
      (extract_peripheral_codes_with dec header).1 =
        bytesToHex ((header.drop 0x50).take 16)) ∧
    (∀ buffer : List Nat, scan buffer = none ↔ (find_saturn_header buffer).1 = none) := by
  refine ⟨fun header => rfl, fun header => rfl, ?_, ?_, ?_⟩
  · intro dec header h
    simp only [extract_game_info_with, OFFSET_GAME_TITLE, OFFSET_VERSION, OFFSET_PRODUCT_NUM,
      OFFSET_AREA_CODES]
    rcases ht : dec ((header.drop 0x60).take 112) with e1 | t <;>
      rcases hv : dec ((header.drop 0x2A).take 6) with e2 | v <;>
        rcases hp : dec ((header.drop 0x20).take 10) with e3 | p <;>
          rcases ha : dec ((header.drop 0x40).take 16) with e4 | a <;>
            (simp only [ht, hv, hp, ha]
             all_goals
               first
               | rfl
               | (exfalso
                  rcases h with h | h | h | h <;> simp_all))
  · intro dec header h
    simp only [extract_peripheral_codes_with, OFFSET_PERIPHERAL, h]
  · intro buffer
    rcases hf : find_saturn_header buffer with ⟨o, mode⟩
    cases o <;> simp [scan, hf]

/-- Witness for C9: the error fallbacks at a decoder that always fails, and the
absence equivalence on the empty buffer. -/
theorem C9_decode_never_fails_witness :
    extract_game_info_with (fun _ => Except.error ()) [] = ([], [], [], []) ∧
    (extract_peripheral_codes_with (fun _ => Except.error ()) []).1 =
      bytesToHex ((List.drop 0x50 []).take 16) ∧
    (scan [] = none ↔ (find_saturn_header []).1 = none) :=
  ⟨C9_decode_never_fails.2.2.1 (fun _ => Except.error ()) [] (Or.inl rfl),
   C9_decode_never_fails.2.2.2.1 (fun _ => Except.error ()) [] rfl,
   C9_decode_never_fails.2.2.2.2 []⟩

/-- C10: a peripheral-field byte ≥ 0x80 decodes to U+FFFD, which passes the
not-space/not-null/printable filter, so it appears among the extracted codes
and is rendered as `Unknown(<U+FFFD>)` among the descriptions. -/
theorem C10_nonascii_byte_kept (header : List Nat) (b : Nat)
    (hmem : b ∈ (header.drop 0x50).take 16) (hb : 128 ≤ b) :
    decodeByteAsciiReplace b = replacementChar ∧
    isPeripheralCodeChar replacementChar = true ∧
    replacementChar ∈ (extract_peripheral_codes header).2 ∧
    describePeripheral replacementChar = "Unknown(" ++ String.mk [replacementChar] ++ ")" ∧
    ("Unknown(" ++ String.mk [replacementChar] ++ ")") ∈
      ((extract_peripheral_codes header).2.map describePeripheral) := by
  have hdec : decodeByteAsciiReplace b = replacementChar := by
    simp only [decodeByteAsciiReplace]
    rw [if_neg (by omega)]
  have hpred : isPeripheralCodeChar replacementChar = true := by decide
  have hmem2 : replacementChar ∈ (extract_peripheral_codes header).2 := by
    rw [extract_peripheral_codes_snd header]
    refine List.mem_filter.mpr ⟨?_, hpred⟩
    have := List.mem_map_of_mem decodeByteAsciiReplace hmem
    rwa [hdec] at this
  have hdesc : describePeripheral replacementChar =
      "Unknown(" ++ String.mk [replacementChar] ++ ")" := by decide
  have hmem3 := List.mem_map_of_mem describePeripheral hmem2
  rw [hdesc] at hmem3
  exact ⟨hdec, hpred, hmem2, hdesc, hmem3⟩

/-- A 256-byte header with the single byte 0x80 at the start of the peripheral
field. -/
def hdrC10 : List Nat := List.replicate 80 0 ++ (128 :: List.replicate 175 0)

/-- Witness for C10 on the concrete header `hdrC10`. -/
theorem C10_nonascii_byte_kept_witness :
    (128 : Nat) ∈ (hdrC10.drop 0x50).take 16 ∧
    replacementChar ∈ (extract_peripheral_codes hdrC10).2 := by
  have hmem : (128 : Nat) ∈ (hdrC10.drop 0x50).take 16 := by decide
  exact ⟨hmem, (C10_nonascii_byte_kept hdrC10 128 hmem (by decide)).2.2.1⟩

end SaturnScanner
